import Mathlib

/-!
Shallow embedding of the connection state machine in
`src/context/ReactiveMidnightWalletContext.tsx` (the current variant with
approval polling), together with the earlier variant found in
`src/unnamed/part_001` (same file path, no approval polling) where a claim
cites it. React `useState` fields become a record `WalletSt`; the three
`setInterval` timers become booleans recording whether each timer is armed;
the external connector's asynchronous calls (`enable`, `isEnabled`,
`state`, `serviceUriConfig`) become `Except`-valued oracle parameters, one
per call the modelled routine performs. The opaque handles
`DAppConnectorWalletAPI` and `ServiceUriConfig` are modelled as `Nat`
identifiers; `DAppConnectorWalletState` keeps the only field the logic
reads, `address`. Values read from a React `useCallback` closure are the
committed state at the time the callback runs; in `connectWallet` the
`error` read by `if (!success && !error)` is captured at entry, before the
`setError` calls of the same invocation, mirroring the stale-closure
semantics of the source.
-/

namespace MidnightWallet

/-- Polling constant from the source: `STATUS_POLLING_INTERVAL_MS = 3000`. -/
def STATUS_POLLING_INTERVAL_MS : Nat := 3000

/-- Polling constant from the source: `STATE_POLLING_INTERVAL_MS = 5000`. -/
def STATE_POLLING_INTERVAL_MS : Nat := 5000

/-- Polling constant from the source: `APPROVAL_POLLING_INTERVAL_MS = 500`. -/
def APPROVAL_POLLING_INTERVAL_MS : Nat := 500

/-- Polling constant from the source: `APPROVAL_POLLING_TIMEOUT_MS = 15000`. -/
def APPROVAL_POLLING_TIMEOUT_MS : Nat := 15000

/-- `const maxAttempts = APPROVAL_POLLING_TIMEOUT_MS / APPROVAL_POLLING_INTERVAL_MS`
in `_startApprovalPolling` (evaluates to 30). -/
def maxAttempts : Nat := APPROVAL_POLLING_TIMEOUT_MS / APPROVAL_POLLING_INTERVAL_MS

/-- Abstract handle standing for a `DAppConnectorWalletAPI` object. -/
abbrev Api := Nat

/-- Abstract handle standing for a `ServiceUriConfig` object. -/
abbrev Uris := Nat

/-- The part of `DAppConnectorWalletState` the logic reads: the `address` field. -/
structure WState where
  address : String
deriving DecidableEq, Repr

/-- The part of the injected `DAppConnectorAPI` connector the logic reads
besides its methods: the `name` field. -/
structure Conn where
  name : String
deriving DecidableEq, Repr

/-- A rejection value thrown by `connector.enable()` (or, in the part_001
variant, by the detail fetch): `code` models `(err as { code? }).code`
restricted to numeric codes, `errMessage` models `err.message` when
`err instanceof Error` (`none` when it is not an `Error`), `reason` models
`(err as APIError)?.reason`. -/
structure ConnErr where
  code : Option Int
  errMessage : Option String
  reason : Option String
deriving DecidableEq, Repr

/-- The React state of the provider: the eight `useState` fields plus, for
each of the three interval refs, whether that timer is armed, and the
`attempts` counter local to the approval-polling closure. -/
structure WalletSt where
  walletApi : Option Api
  serviceUris : Option Uris
  walletState : Option WState
  isConnecting : Bool
  isCheckingStatus : Bool
  error : Option String
  infoMessage : Option String
  walletName : Option String
  statusPoll : Bool
  statePoll : Bool
  approvalPoll : Bool
  approvalAttempts : Nat
deriving DecidableEq, Repr

/-- Whether `pat` occurs as a leading segment of `l` (helper for modelling
JavaScript `String.prototype.includes`). -/
def listHasPre (pat : List Char) : List Char → Bool :=
  fun l =>
    match pat, l with
    | [], _ => true
    | _ :: _, [] => false
    | p :: ps, c :: cs => p = c && listHasPre ps cs

/-- Whether `pat` occurs as a contiguous segment of `l`. -/
def listHasSub (pat : List Char) : List Char → Bool
  | [] => listHasPre pat []
  | c :: cs => listHasPre pat (c :: cs) || listHasSub pat cs

/-- JavaScript `s.includes(pat)`. -/
def strIncludes (s pat : String) : Bool :=
  listHasSub pat.toList s.toList

/-- The message resolution
`(err instanceof Error ? err.message : '') || apiError?.reason || 'Unknown connection error'`
from `_establishConnection` (JavaScript `||` skips empty strings and
absent values). -/
def connErrMsg (e : ConnErr) : String :=
  let m1 := e.errMessage.getD ""
  if m1 ≠ "" then m1
  else
    match e.reason with
    | some r => if r ≠ "" then r else "Unknown connection error"
    | none => "Unknown connection error"

/-- The predicate `code === -3 || String(msg).includes('enable() first')`
from `_establishConnection`, applied to the resolved message. -/
def isApprovalError (code : Option Int) (msg : String) : Bool :=
  code = some (-3) || strIncludes msg "enable() first"

/-- The template `Connection failed: ${msg}${code ? ` (Code: ${code})` : ''}`;
a numeric code of 0 is falsy in JavaScript, so it produces no suffix. -/
def connFailedMsg (e : ConnErr) : String :=
  "Connection failed: " ++ connErrMsg e ++
    (match e.code with
     | some c => if c = 0 then "" else " (Code: " ++ toString c ++ ")"
     | none => "")

/-- Message set by `_fetchDetails` when `state()`/`serviceUriConfig()` fail. -/
def detailsFetchFailMsg : String := "Connected, but failed to fetch wallet details."

/-- Message set by the approval poll on timeout. -/
def approvalTimeoutMsg : String :=
  "Connection timed out. Did you approve the request in the wallet?"

/-- Message set by the approval poll when `isEnabled()` throws. -/
def approvalPollFailMsg : String :=
  "An error occurred while checking wallet approval status."

/-- Info message set by `_startApprovalPolling`. -/
def approvalInfoMsg (name : String) : String :=
  "Connection prompt likely appeared in " ++ name ++
    ". Please approve it. Checking status..."

/-- Info message set when the approval poll sees `isEnabled()` true. -/
def approvalFinalizingMsg : String := "Approval detected. Finalizing connection..."

/-- Message `Wallet connector '${targetWalletName}' not found.` from
`connectWallet`. -/
def connectorNotFoundMsg (name : String) : String :=
  "Wallet connector \x27" ++ name ++ "\x27 not found."

/-- Message set by the part_001 variant when the initial `isEnabled()` throws. -/
def initialCheckFailMsgV1 : String := "Could not check initial wallet status."

/-- JavaScript falsiness of a `string | null` value (`null` and `''` are falsy). -/
def strFalsy : Option String → Bool
  | none => true
  | some m => m = ""

/-- `clearAllIntervals` from the source: disarm all three timers. -/
def clearAllIntervals (s : WalletSt) : WalletSt :=
  { s with statusPoll := false, statePoll := false, approvalPoll := false }

/-- `_fetchDetails` from the current variant: on success store the fetched
state and URIs and return `true`; on failure set the details error, null
out state and URIs, and return `false`. The oracle `fetchRes` is the joint
outcome of `Promise.all([enabledApi.state(), connector.serviceUriConfig()])`. -/
def fetchDetails (s : WalletSt) (fetchRes : Except Unit (WState × Uris)) :
    WalletSt × Bool :=
  match fetchRes with
  | .ok (st, uris) => ({ s with walletState := some st, serviceUris := some uris }, true)
  | .error _ =>
      ({ s with error := some detailsFetchFailMsg, walletState := none,
                serviceUris := none }, false)

/-- `_establishConnection` from the current variant. On `enable()` success
the handle and name are stored, then details are fetched; full success
additionally clears `error` and `infoMessage`. On `enable()` failure the
partial state is reset; an approval-pending failure during a manual
attempt returns `false` silently, any other manual failure sets the
error, and any failure during the initial check is silent. -/
def establishConnection (s : WalletSt) (conn : Conn) (isInitialCheck : Bool)
    (enableRes : Except ConnErr Api) (fetchRes : Except Unit (WState × Uris)) :
    WalletSt × Bool :=
  match enableRes with
  | .ok api =>
      let s1 := { s with walletApi := some api, walletName := some conn.name }
      let p := fetchDetails s1 fetchRes
      if p.2 then ({ p.1 with error := none, infoMessage := none }, true)
      else (p.1, false)
  | .error e =>
      let s1 := { s with walletApi := none, serviceUris := none,
                         walletState := none, walletName := none }
      if isApprovalError e.code (connErrMsg e) && !isInitialCheck then (s1, false)
      else if !isInitialCheck then
        ({ s1 with error := some (connFailedMsg e) }, false)
      else (s1, false)

/-- `_startApprovalPolling`: clear all intervals, set the info message, arm
the approval timer with its local `attempts` counter reset to 0
(`isConnecting` is deliberately left unchanged). -/
def startApprovalPolling (s : WalletSt) (conn : Conn) : WalletSt :=
  { (clearAllIntervals s) with
      infoMessage := some (approvalInfoMsg conn.name),
      approvalPoll := true, approvalAttempts := 0 }

/-- `connectWallet` from the current variant. `errorAtRender` is the
closure-captured `error` read by `if (!success && !error)`; the `setError`
calls performed during this invocation do not change it. `findConn` is the
result of `getConnector()`. -/
def connectWallet (s : WalletSt) (targetName : String) (findConn : Option Conn)
    (enableRes : Except ConnErr Api) (fetchRes : Except Unit (WState × Uris)) :
    WalletSt :=
  if s.isConnecting || s.walletApi.isSome then s
  else
    let errorAtRender := s.error
    let s1 := clearAllIntervals
      { s with isConnecting := true, error := none, infoMessage := none }
    match findConn with
    | none =>
        { s1 with error := some (connectorNotFoundMsg targetName),
                  isConnecting := false }
    | some conn =>
        let p := establishConnection s1 conn false enableRes fetchRes
        if !p.2 && strFalsy errorAtRender then startApprovalPolling p.1 conn
        else { p.1 with isConnecting := false }

/-- `disconnectWallet`: clear all timers and reset every field. -/
def disconnectWallet (s : WalletSt) : WalletSt :=
  { (clearAllIntervals s) with
      walletApi := none, serviceUris := none, walletState := none,
      error := none, infoMessage := none, isConnecting := false,
      isCheckingStatus := false, walletName := none }

/-- One firing of the approval-poll interval callback, a no-op when that
timer is not armed. `attempts++` happens first; past `maxAttempts` the
poll times out; otherwise `isEnabled()` is consulted: a throw is a
terminal error, `false` just waits, and `true` stops the poll and re-runs
`_establishConnection` (whose returned `success` the source ignores). -/
def approvalPollTick (s : WalletSt) (conn : Conn) (isEnabledRes : Except Unit Bool)
    (enableRes : Except ConnErr Api) (fetchRes : Except Unit (WState × Uris)) :
    WalletSt :=
  if !s.approvalPoll then s
  else
    let s1 := { s with approvalAttempts := s.approvalAttempts + 1 }
    if s1.approvalAttempts > maxAttempts then
      { (clearAllIntervals s1) with
          error := some approvalTimeoutMsg
          infoMessage := none
          isConnecting := false }
    else
      match isEnabledRes with
      | .error _ =>
          { (clearAllIntervals s1) with
              error := some approvalPollFailMsg
              infoMessage := none
              isConnecting := false }
      | .ok false => s1
      | .ok true =>
          let s2 := { (clearAllIntervals s1) with
                        infoMessage := some approvalFinalizingMsg }
          let p := establishConnection s2 conn false enableRes fetchRes
          { p.1 with infoMessage := none, isConnecting := false }

/-- One firing of the background `isEnabled` status-poll interval, a no-op
when that timer is not armed: a missing connector, a `false` answer, or a
throw all call `disconnectWallet`. -/
def statusPollTick (s : WalletSt) (findConn : Option Conn)
    (isEnabledRes : Except Unit Bool) : WalletSt :=
  if !s.statusPoll then s
  else
    match findConn with
    | none => disconnectWallet s
    | some _ =>
        match isEnabledRes with
        | .ok true => s
        | .ok false => disconnectWallet s
        | .error _ => disconnectWallet s

/-- The comparison `newState.address !== (walletState ? walletState.address : null)`
from the background state poll (comparing against `null` when no state is
cached is always a difference). -/
def addrChanged (s : WalletSt) (newState : WState) : Bool :=
  match s.walletState with
  | some w => newState.address ≠ w.address
  | none => true

/-- One firing of the background `state()` poll interval, a no-op when that
timer is not armed or `walletApi` is null: a changed address updates the
cached state in place, a throw calls `disconnectWallet`. -/
def statePollTick (s : WalletSt) (stateRes : Except Unit WState) : WalletSt :=
  if !s.statePoll then s
  else
    match s.walletApi with
    | none => s
    | some _ =>
        match stateRes with
        | .ok newState =>
            if addrChanged s newState then { s with walletState := some newState }
            else s
        | .error _ => disconnectWallet s

/-- The background-polling `useEffect` body: clear all intervals, then if
connected arm the status and state polls; either way `isCheckingStatus`
ends `false` (it is set `true` then `false` synchronously when arming). -/
def backgroundPollingEffect (s : WalletSt) : WalletSt :=
  let s1 := clearAllIntervals s
  if s1.walletApi.isSome then
    { s1 with statusPoll := true, statePoll := true, isCheckingStatus := false }
  else { s1 with isCheckingStatus := false }

/-- The initial-load `useEffect` of the current variant: ask `isEnabled()`;
on `true` run `_establishConnection(connector, true)`; a throw from
`isEnabled()` is only logged; `finally` sets `isCheckingStatus` to false. -/
def initialLoad (s : WalletSt) (findConn : Option Conn)
    (isEnabledRes : Except Unit Bool) (enableRes : Except ConnErr Api)
    (fetchRes : Except Unit (WState × Uris)) : WalletSt :=
  let s1 := { s with isCheckingStatus := true }
  match findConn with
  | none => { s1 with isCheckingStatus := false }
  | some conn =>
      match isEnabledRes with
      | .error _ => { s1 with isCheckingStatus := false }
      | .ok false => { s1 with isCheckingStatus := false }
      | .ok true =>
          let p := establishConnection s1 conn true enableRes fetchRes
          { p.1 with isCheckingStatus := false }

/-- The shared `catch` branch of `_establishConnection` in the part_001
variant: set the error unless this is the initial check or the error is
the approval-pending signal, then reset the partial state. -/
def establishFailV1 (s : WalletSt) (initialCheck : Bool) (e : ConnErr) :
    WalletSt × Bool :=
  let s1 :=
    if !initialCheck && !(isApprovalError e.code (connErrMsg e)) then
      { s with error := some (connFailedMsg e) }
    else s
  ({ s1 with walletApi := none, serviceUris := none, walletState := none,
             walletName := none }, false)

/-- `_establishConnection` from the part_001 variant: it clears `error`
first, performs `enable()` and the detail fetch inside one `try`, and only
commits the handle, name, state and URIs together on full success; the
detail-fetch rejection carries its own error value. -/
def establishConnectionV1 (s : WalletSt) (conn : Conn) (initialCheck : Bool)
    (enableRes : Except ConnErr Api) (fetchRes : Except ConnErr (WState × Uris)) :
    WalletSt × Bool :=
  let s0 := { s with error := none }
  match enableRes with
  | .ok api =>
      match fetchRes with
      | .ok (st, uris) =>
          ({ s0 with walletApi := some api, walletName := some conn.name,
                     walletState := some st, serviceUris := some uris,
                     error := none }, true)
      | .error e => establishFailV1 s0 initialCheck e
  | .error e => establishFailV1 s0 initialCheck e

/-- `connectWallet` from the part_001 variant: guard, set `isConnecting`,
clear `error`, look up the connector, run the establish routine, and set
`isConnecting` back to false regardless of outcome. -/
def connectWalletV1 (s : WalletSt) (targetName : String) (findConn : Option Conn)
    (enableRes : Except ConnErr Api) (fetchRes : Except ConnErr (WState × Uris)) :
    WalletSt :=
  if s.walletApi.isSome || s.isConnecting then s
  else
    let s1 := { s with isConnecting := true, error := none }
    match findConn with
    | none =>
        { s1 with error := some (connectorNotFoundMsg targetName),
                  isConnecting := false }
    | some conn =>
        let p := establishConnectionV1 s1 conn false enableRes fetchRes
        { p.1 with isConnecting := false }

/-- The initial-load `useEffect` of the part_001 variant: unlike the
current variant, a throw from the initial `isEnabled()` sets the
user-visible error "Could not check initial wallet status.". -/
def initialLoadV1 (s : WalletSt) (findConn : Option Conn)
    (isEnabledRes : Except Unit Bool) (enableRes : Except ConnErr Api)
    (fetchRes : Except ConnErr (WState × Uris)) : WalletSt :=
  let s1 := { s with isCheckingStatus := true }
  match findConn with
  | none => { s1 with isCheckingStatus := false }
  | some conn =>
      match isEnabledRes with
      | .error _ =>
          { s1 with error := some initialCheckFailMsgV1, isCheckingStatus := false }
      | .ok false => { s1 with isCheckingStatus := false }
      | .ok true =>
          let p := establishConnectionV1 s1 conn true enableRes fetchRes
          { p.1 with isCheckingStatus := false }

/-- Events of the modelled machine: each constructor is one atomic callback
the browser can run, carrying the oracle outcomes of the external calls
that callback performs. -/
inductive Ev where
  | evInitial (findConn : Option Conn) (isEnabledRes : Except Unit Bool)
      (enableRes : Except ConnErr Api) (fetchRes : Except Unit (WState × Uris))
  | evConnect (targetName : String) (findConn : Option Conn)
      (enableRes : Except ConnErr Api) (fetchRes : Except Unit (WState × Uris))
  | evDisconnect
  | evApprovalTick (conn : Conn) (isEnabledRes : Except Unit Bool)
      (enableRes : Except ConnErr Api) (fetchRes : Except Unit (WState × Uris))
  | evStatusTick (findConn : Option Conn) (isEnabledRes : Except Unit Bool)
  | evStateTick (stateRes : Except Unit WState)
  | evEffect

/-- Interpretation of one event on the state. -/
def step (s : WalletSt) : Ev → WalletSt
  | .evInitial f e en fr => initialLoad s f e en fr
  | .evConnect t f en fr => connectWallet s t f en fr
  | .evDisconnect => disconnectWallet s
  | .evApprovalTick c e en fr => approvalPollTick s c e en fr
  | .evStatusTick f e => statusPollTick s f e
  | .evStateTick r => statePollTick s r
  | .evEffect => backgroundPollingEffect s

/-- The mount-time state: every `useState` initial value (`isCheckingStatus`
starts `true`), no timer armed. -/
def initSt : WalletSt :=
  { walletApi := none, serviceUris := none, walletState := none,
    isConnecting := false, isCheckingStatus := true, error := none,
    infoMessage := none, walletName := none, statusPoll := false,
    statePoll := false, approvalPoll := false, approvalAttempts := 0 }

/-- Run a sequence of events from the mount-time state. -/
def runTrace (tr : List Ev) : WalletSt :=
  tr.foldl step initSt

/-- Whether an `isEnabled()` outcome is a resolved `true`. -/
def exOkTrue : Except Unit Bool → Bool
  | .ok true => true
  | _ => false

/-- Whether an `enable()` outcome is a success. -/
def enableOk : Except ConnErr Api → Bool
  | .ok _ => true
  | .error _ => false

/-- Whether a detail-fetch outcome is a success. -/
def fetchOk : Except Unit (WState × Uris) → Bool
  | .ok _ => true
  | .error _ => false

/-- Specification-side predicate (following the amended C1's wording):
the event `e`, fired in state `s`, reaches a call to `connector.enable()`
inside the establish routine. That happens on the initial check when a
connector is present and `isEnabled()` resolved `true`; on a manual
connect when the guard passes and a connector is present; and on an
approval poll when that timer is armed, the attempt budget is not
exhausted, and `isEnabled()` resolved `true`. -/
def establishRuns (s : WalletSt) : Ev → Bool
  | .evInitial f e _ _ => f.isSome && exOkTrue e
  | .evConnect _ f _ _ => !(s.isConnecting || s.walletApi.isSome) && f.isSome
  | .evApprovalTick _ e _ _ =>
      s.approvalPoll && decide (s.approvalAttempts + 1 ≤ maxAttempts) && exOkTrue e
  | _ => false

/-- Specification-side predicate: the `enable()` outcome carried by an
establish-capable event. -/
def evEnableOk : Ev → Bool
  | .evInitial _ _ en _ => enableOk en
  | .evConnect _ _ en _ => enableOk en
  | .evApprovalTick _ _ en _ => enableOk en
  | _ => false

/-- Specification-side predicate (following the amended C1's wording): the
event `e`, fired in state `s`, discards the wallet handle without running
the establish routine: an explicit disconnect, an armed status poll whose
connector is missing or whose `isEnabled()` did not resolve `true`, or an
armed state poll (with a live handle) whose `state()` threw. -/
def resetRuns (s : WalletSt) : Ev → Bool
  | .evDisconnect => true
  | .evStatusTick f e => s.statusPoll && (f.isNone || !exOkTrue e)
  | .evStateTick r =>
      s.statePoll && s.walletApi.isSome &&
        (match r with | .ok _ => false | .error _ => true)
  | _ => false

/-- Specification-side transition of the amended C1's handle-liveness
tracker: the handle is live after an event exactly when that event ran the
establish routine and its `enable()` succeeded, or it was live before and
the event neither ran establish (with a failing `enable()`) nor reset the
session. -/
def specLiveStep (s : WalletSt) (e : Ev) (live : Bool) : Bool :=
  if establishRuns s e then evEnableOk e
  else if resetRuns s e then false
  else live

/-- The amended C1's handle-liveness tracker evaluated along a trace,
carrying the concrete state only to evaluate guards. -/
def traceLiveAux : WalletSt → Bool → List Ev → Bool
  | _, live, [] => live
  | s, live, e :: tr => traceLiveAux (step s e) (specLiveStep s e live) tr

/-- Handle liveness predicted by the amended C1 for a whole trace from the
mount-time state (where no handle is live). -/
def liveOfTrace (tr : List Ev) : Bool :=
  traceLiveAux initSt false tr

/-- Iterated approval-poll firings that each observe `isEnabled()` resolve
`false`; the enable/fetch oracles of the eventual re-run are not consulted
by such firings and are fixed arbitrarily. -/
def pollFalseN (conn : Conn) (s : WalletSt) : Nat → WalletSt
  | 0 => s
  | n + 1 =>
      pollFalseN conn
        (approvalPollTick s conn (.ok false) (.error ⟨none, none, none⟩) (.error ())) n

/-- A sample connector used to instantiate theorems at concrete inputs. -/
def conn0 : Conn := ⟨"mnLace"⟩

/-- A state with only the approval-poll timer armed and a fresh attempts
counter, as `_startApprovalPolling` leaves the timers. -/
def apSt : WalletSt := { initSt with approvalPoll := true }

/-- A connected state with the two background polls armed, as the
background-polling effect leaves a connected session. -/
def connSt : WalletSt :=
  { initSt with walletApi := some 1, statusPoll := true, statePoll := true }

/-- A connected state with only the state poll armed. -/
def stSt : WalletSt := { initSt with walletApi := some 1, statePoll := true }

/-- A state in which a manual connect is in progress. -/
def busySt : WalletSt := { initSt with isConnecting := true }

theorem clearAllIntervals_walletApi (s : WalletSt) :
    (clearAllIntervals s).walletApi = s.walletApi := rfl

theorem startApprovalPolling_walletApi (s : WalletSt) (c : Conn) :
    (startApprovalPolling s c).walletApi = s.walletApi := rfl

theorem disconnectWallet_walletApi (s : WalletSt) :
    (disconnectWallet s).walletApi = none := rfl

theorem establishConnection_walletApi (s : WalletSt) (conn : Conn) (ic : Bool)
    (en : Except ConnErr Api) (fr : Except Unit (WState × Uris)) :
    (establishConnection s conn ic en fr).1.walletApi =
      (match en with | .ok api => some api | .error _ => none) := by
  cases en with
  | ok api => cases fr <;> simp [establishConnection, fetchDetails]
  | error e =>
      simp only [establishConnection]
      split <;> simp
      split <;> simp

theorem walletApi_step (s : WalletSt) (e : Ev) :
    (step s e).walletApi.isSome = specLiveStep s e s.walletApi.isSome := by
  cases e with
  | evInitial f er en fr =>
      cases f with
      | none => simp [step, initialLoad, specLiveStep, establishRuns, resetRuns]
      | some conn =>
          cases er with
          | error u =>
              simp [step, initialLoad, specLiveStep, establishRuns, resetRuns, exOkTrue]
          | ok b =>
              cases b with
              | false =>
                  simp [step, initialLoad, specLiveStep, establishRuns, resetRuns,
                        exOkTrue]
              | true =>
                  simp [step, initialLoad, specLiveStep, establishRuns, resetRuns,
                        exOkTrue, evEnableOk, establishConnection_walletApi]
                  cases en <;> simp [enableOk]
  | evConnect t f en fr =>
      by_cases hg : (s.isConnecting || s.walletApi.isSome) = true
      · simp [step, connectWallet, hg, specLiveStep, establishRuns, resetRuns]
      · rw [Bool.not_eq_true] at hg
        cases f with
        | none =>
            simp [step, connectWallet, hg, specLiveStep, establishRuns, resetRuns,
                  clearAllIntervals]
        | some conn =>
            simp only [step, connectWallet, hg, Bool.false_eq_true, if_false,
                       specLiveStep, establishRuns, resetRuns, evEnableOk]
            split
            · simp [startApprovalPolling_walletApi, establishConnection_walletApi,
                    clearAllIntervals, hg]
              cases en <;> simp [enableOk]
            · simp [establishConnection_walletApi, clearAllIntervals, hg]
              cases en <;> simp [enableOk]
  | evDisconnect =>
      simp [step, disconnectWallet, clearAllIntervals, specLiveStep, establishRuns,
            resetRuns]
  | evApprovalTick c er en fr =>
      by_cases hp : s.approvalPoll = true
      · by_cases hm : s.approvalAttempts + 1 ≤ maxAttempts
        · cases er with
          | error u =>
              simp [step, approvalPollTick, hp, specLiveStep, establishRuns,
                    resetRuns, exOkTrue, clearAllIntervals, hm, Nat.not_lt.mpr hm]
          | ok b =>
              cases b with
              | false =>
                  simp [step, approvalPollTick, hp, specLiveStep, establishRuns,
                        resetRuns, exOkTrue, hm, Nat.not_lt.mpr hm]
              | true =>
                  simp [step, approvalPollTick, hp, specLiveStep, establishRuns,
                        resetRuns, exOkTrue, evEnableOk, hm, Nat.not_lt.mpr hm,
                        establishConnection_walletApi]
                  cases en <;> simp [enableOk]
        · have hgt : s.approvalAttempts + 1 > maxAttempts := Nat.lt_of_not_le hm
          simp [step, approvalPollTick, hp, specLiveStep, establishRuns, resetRuns,
                clearAllIntervals, hgt, hm]
      · rw [Bool.not_eq_true] at hp
        simp [step, approvalPollTick, hp, specLiveStep, establishRuns, resetRuns]
  | evStatusTick f er =>
      by_cases hp : s.statusPoll = true
      · cases f with
        | none =>
            simp [step, statusPollTick, hp, specLiveStep, establishRuns, resetRuns,
                  disconnectWallet, clearAllIntervals]
        | some c =>
            cases er with
            | error u =>
                simp [step, statusPollTick, hp, specLiveStep, establishRuns,
                      resetRuns, exOkTrue, disconnectWallet, clearAllIntervals]
            | ok b =>
                cases b <;>
                  simp [step, statusPollTick, hp, specLiveStep, establishRuns,
                        resetRuns, exOkTrue, disconnectWallet, clearAllIntervals]
      · rw [Bool.not_eq_true] at hp
        simp [step, statusPollTick, hp, specLiveStep, establishRuns, resetRuns]
  | evStateTick r =>
      by_cases hp : s.statePoll = true
      · cases ha : s.walletApi with
        | none => simp [step, statePollTick, hp, ha, specLiveStep, establishRuns,
                        resetRuns]
        | some api =>
            cases r with
            | ok st =>
                simp only [step, statePollTick, hp, ha, Bool.not_true,
                           Bool.false_eq_true, if_false]
                split <;>
                  simp [specLiveStep, establishRuns, resetRuns, ha, hp]
            | error u =>
                simp [step, statePollTick, hp, ha, specLiveStep, establishRuns,
                      resetRuns, disconnectWallet, clearAllIntervals]
      · rw [Bool.not_eq_true] at hp
        simp [step, statePollTick, hp, specLiveStep, establishRuns, resetRuns]
  | evEffect =>
      simp only [step, backgroundPollingEffect, clearAllIntervals]
      split <;> simp [specLiveStep, establishRuns, resetRuns]

theorem foldl_live (tr : List Ev) : ∀ s : WalletSt,
    (tr.foldl step s).walletApi.isSome = traceLiveAux s s.walletApi.isSome tr := by
  induction tr with
  | nil => intro s; rfl
  | cons e tr ih =>
      intro s
      show (tr.foldl step (step s e)).walletApi.isSome = _
      rw [ih (step s e), walletApi_step]
      rfl

/-- C1, counterexample: starting from the mount-time state, a manual connect
whose `enable()` succeeds (handle 1) and whose detail fetch fails leaves
`walletApi = some 1` with the details error set — the claim asserts the
handle is discarded (`walletApi` becomes null) in exactly this situation. -/
theorem C1_fetch_fail_keeps_handle :
    (connectWallet initSt "mnLace" (some ⟨"mnLace"⟩) (.ok 1) (.error ())).walletApi
        = some 1 ∧
    (connectWallet initSt "mnLace" (some ⟨"mnLace"⟩) (.ok 1) (.error ())).error
        = some detailsFetchFailMsg := by
  exact ⟨rfl, rfl⟩

/-- C1 (amended): in every reachable state, `walletApi` is non-null iff the
last establish attempt reached a successful `enable()` and no disconnect or
failure-induced reset has occurred since — success of the detail fetches is
not required; in particular, when the detail fetch fails after `enable()`
succeeds during a manual connect attempt, the error "Connected, but failed
to fetch wallet details." is set but the wallet handle is retained. -/
theorem C1_walletApi_iff_enableSuccess :
    (∀ tr : List Ev, (runTrace tr).walletApi.isSome = liveOfTrace tr) ∧
    (∀ (s : WalletSt) (conn : Conn) (api : Api),
      (establishConnection s conn false (.ok api) (.error ())).1.walletApi = some api ∧
      (establishConnection s conn false (.ok api) (.error ())).1.error =
        some detailsFetchFailMsg) := by
  constructor
  · intro tr
    have h := foldl_live tr initSt
    simpa [runTrace, liveOfTrace, initSt] using h
  · intro s conn api
    exact ⟨rfl, rfl⟩

/-- C2, code evaluated at the failing input: from the mount-time state (no
prior error), a manual connect whose `enable()` rejects with the generic
error `{code: 5, message: "User rejected"}` both sets the error message and
starts approval polling (info message set, approval timer armed,
`isConnecting` left true), because `if (!success && !error)` reads the
closure-captured `error`, which is still null. -/
theorem C2_generic_failure_also_starts_polling :
    (connectWallet initSt "mnLace" (some ⟨"mnLace"⟩)
        (.error ⟨some 5, some "User rejected", none⟩) (.ok (⟨"addr"⟩, 7))).error
      = some "Connection failed: User rejected (Code: 5)" ∧
    (connectWallet initSt "mnLace" (some ⟨"mnLace"⟩)
        (.error ⟨some 5, some "User rejected", none⟩) (.ok (⟨"addr"⟩, 7))).approvalPoll
      = true ∧
    (connectWallet initSt "mnLace" (some ⟨"mnLace"⟩)
        (.error ⟨some 5, some "User rejected", none⟩) (.ok (⟨"addr"⟩, 7))).isConnecting
      = true ∧
    (connectWallet initSt "mnLace" (some ⟨"mnLace"⟩)
        (.error ⟨some 5, some "User rejected", none⟩) (.ok (⟨"addr"⟩, 7))).infoMessage
      = some (approvalInfoMsg "mnLace") := by
  refine ⟨?_, rfl, rfl, rfl⟩
  decide

/-- C3, counterexample: during the initial silent check (connector present,
`isEnabled()` true, `enable()` succeeds, detail fetch fails) the
user-visible error field is set to the details message, although the
mount-time state has no error — the claim asserts the initial check never
sets the error regardless of which step fails. -/
theorem C3_initial_fetch_fail_sets_error :
    initSt.error = none ∧
    (initialLoad initSt (some ⟨"mnLace"⟩) (.ok true) (.ok 1) (.error ())).error =
      some detailsFetchFailMsg := by
  exact ⟨rfl, rfl⟩

/-- C3 (amended): the initial silent check leaves the error field unchanged
when `isEnabled()` throws and when `enable()` fails (any code, including
-3); but when `enable()` succeeds and the post-enable detail fetch fails it
sets the error "Connected, but failed to fetch wallet details."; in the
part_001 variant, a throwing initial `isEnabled()` additionally sets the
error "Could not check initial wallet status.". -/
theorem C3_initial_check_error_behavior :
    (∀ (s : WalletSt) (conn : Conn) (en : Except ConnErr Api)
        (fr : Except Unit (WState × Uris)),
      (initialLoad s (some conn) (.error ()) en fr).error = s.error) ∧
    (∀ (s : WalletSt) (conn : Conn) (e : ConnErr) (fr : Except Unit (WState × Uris)),
      (initialLoad s (some conn) (.ok true) (.error e) fr).error = s.error) ∧
    (∀ (s : WalletSt) (conn : Conn) (api : Api),
      (initialLoad s (some conn) (.ok true) (.ok api) (.error ())).error =
        some detailsFetchFailMsg) ∧
    (∀ (s : WalletSt) (conn : Conn) (en : Except ConnErr Api)
        (fr : Except ConnErr (WState × Uris)),
      (initialLoadV1 s (some conn) (.error ()) en fr).error =
        some initialCheckFailMsgV1) := by
  refine ⟨fun s conn en fr => rfl, fun s conn e fr => ?_, fun s conn api => rfl,
          fun s conn en fr => rfl⟩
  simp only [initialLoad, establishConnection]
  split <;> rfl

/-- C8: calling `connectWallet()` while `isConnecting` is true or while
connected (`walletApi` non-null) returns immediately and changes no field
of the state, in both the current and the part_001 variant. -/
theorem C8_connect_noop_when_busy :
    ∀ (s : WalletSt) (t : String) (f : Option Conn) (en : Except ConnErr Api)
      (fr : Except Unit (WState × Uris)) (fr2 : Except ConnErr (WState × Uris)),
      s.isConnecting = true ∨ s.walletApi.isSome = true →
      connectWallet s t f en fr = s ∧ connectWalletV1 s t f en fr2 = s := by
  intro s t f en fr fr2 h
  rcases h with h | h <;> constructor <;>
    simp [connectWallet, connectWalletV1, h]

/-- C8, witness: with `isConnecting = true` the call is a no-op. -/
theorem C8_connect_noop_when_busy_witness :
    ({ initSt with isConnecting := true } : WalletSt).isConnecting = true ∧
    (connectWallet { initSt with isConnecting := true } "mnLace" none
        (.error ⟨none, none, none⟩) (.error ()) =
      { initSt with isConnecting := true } ∧
     connectWalletV1 { initSt with isConnecting := true } "mnLace" none
        (.error ⟨none, none, none⟩) (.error ⟨none, none, none⟩) =
      { initSt with isConnecting := true }) :=
  ⟨rfl, C8_connect_noop_when_busy { initSt with isConnecting := true } "mnLace" none
      (.error ⟨none, none, none⟩) (.error ()) (.error ⟨none, none, none⟩)
      (Or.inl rfl)⟩

/-- C4, counterexample: with approval polling armed (by a manual connect
rejected with code -3), a poll that observes `isEnabled()` true re-runs the
connect routine; when that re-run fails with code -3 again the machine ends
with no error set and no wallet handle — not in the Error state the claim
requires for a re-run failure "for any reason". -/
theorem C4_rerun_approval_failure_no_error :
    (approvalPollTick
        (connectWallet initSt "mnLace" (some ⟨"mnLace"⟩)
          (.error ⟨some (-3), none, none⟩) (.ok (⟨"addr"⟩, 7)))
        ⟨"mnLace"⟩ (.ok true) (.error ⟨some (-3), none, none⟩)
        (.ok (⟨"addr"⟩, 7))).error = none ∧
    (approvalPollTick
        (connectWallet initSt "mnLace" (some ⟨"mnLace"⟩)
          (.error ⟨some (-3), none, none⟩) (.ok (⟨"addr"⟩, 7)))
        ⟨"mnLace"⟩ (.ok true) (.error ⟨some (-3), none, none⟩)
        (.ok (⟨"addr"⟩, 7))).walletApi = none := by
  exact ⟨rfl, rfl⟩

/-- C4 (amended): when an approval poll observes `isEnabled()` true (within
the attempt budget), the connect routine is re-run and the poll ends with
`infoMessage` cleared and `isConnecting` false; if the re-run fully
succeeds the machine is connected with no error; if the detail fetch fails
the details error is set but the handle is retained; if `enable()` fails
with the approval-pending signal the machine ends disconnected with the
error unchanged (not in the Error state); and only a non-approval
`enable()` failure ends in the Error state. -/
theorem C4_approval_rerun_outcomes :
    (∀ (s : WalletSt) (conn : Conn) (api : Api) (st : WState) (u : Uris),
      s.approvalPoll = true → s.approvalAttempts + 1 ≤ maxAttempts →
      ((approvalPollTick s conn (.ok true) (.ok api) (.ok (st, u))).walletApi
          = some api ∧
       (approvalPollTick s conn (.ok true) (.ok api) (.ok (st, u))).error = none ∧
       (approvalPollTick s conn (.ok true) (.ok api) (.ok (st, u))).infoMessage
          = none ∧
       (approvalPollTick s conn (.ok true) (.ok api) (.ok (st, u))).isConnecting
          = false)) ∧
    (∀ (s : WalletSt) (conn : Conn) (api : Api),
      s.approvalPoll = true → s.approvalAttempts + 1 ≤ maxAttempts →
      ((approvalPollTick s conn (.ok true) (.ok api) (.error ())).walletApi
          = some api ∧
       (approvalPollTick s conn (.ok true) (.ok api) (.error ())).error
          = some detailsFetchFailMsg ∧
       (approvalPollTick s conn (.ok true) (.ok api) (.error ())).infoMessage
          = none ∧
       (approvalPollTick s conn (.ok true) (.ok api) (.error ())).isConnecting
          = false)) ∧
    (∀ (s : WalletSt) (conn : Conn) (e : ConnErr) (fr : Except Unit (WState × Uris)),
      s.approvalPoll = true → s.approvalAttempts + 1 ≤ maxAttempts →
      isApprovalError e.code (connErrMsg e) = true →
      ((approvalPollTick s conn (.ok true) (.error e) fr).walletApi = none ∧
       (approvalPollTick s conn (.ok true) (.error e) fr).error = s.error ∧
       (approvalPollTick s conn (.ok true) (.error e) fr).infoMessage = none ∧
       (approvalPollTick s conn (.ok true) (.error e) fr).isConnecting = false)) ∧
    (∀ (s : WalletSt) (conn : Conn) (e : ConnErr) (fr : Except Unit (WState × Uris)),
      s.approvalPoll = true → s.approvalAttempts + 1 ≤ maxAttempts →
      isApprovalError e.code (connErrMsg e) = false →
      ((approvalPollTick s conn (.ok true) (.error e) fr).walletApi = none ∧
       (approvalPollTick s conn (.ok true) (.error e) fr).error
          = some (connFailedMsg e) ∧
       (approvalPollTick s conn (.ok true) (.error e) fr).infoMessage = none ∧
       (approvalPollTick s conn (.ok true) (.error e) fr).isConnecting = false)) := by
  refine ⟨?_, ?_, ?_, ?_⟩
  · intro s conn api st u hp hm
    have hng : ¬ (s.approvalAttempts + 1 > maxAttempts) := by omega
    simp [approvalPollTick, hp, hng, establishConnection, fetchDetails,
          clearAllIntervals]
  · intro s conn api hp hm
    have hng : ¬ (s.approvalAttempts + 1 > maxAttempts) := by omega
    simp [approvalPollTick, hp, hng, establishConnection, fetchDetails,
          clearAllIntervals]
  · intro s conn e fr hp hm he
    have hng : ¬ (s.approvalAttempts + 1 > maxAttempts) := by omega
    simp [approvalPollTick, hp, hng, establishConnection, he, clearAllIntervals]
  · intro s conn e fr hp hm he
    have hng : ¬ (s.approvalAttempts + 1 > maxAttempts) := by omega
    simp [approvalPollTick, hp, hng, establishConnection, he, clearAllIntervals]

/-- C4, witness: a fully successful re-run from a freshly armed approval
poll ends connected with no error, no info message, and `isConnecting`
false. -/
theorem C4_approval_rerun_outcomes_witness :
    ({ initSt with approvalPoll := true } : WalletSt).approvalPoll = true ∧
    ({ initSt with approvalPoll := true } : WalletSt).approvalAttempts + 1
        ≤ maxAttempts ∧
    ((approvalPollTick { initSt with approvalPoll := true } ⟨"mnLace"⟩ (.ok true)
        (.ok 1) (.ok (⟨"addr"⟩, 7))).walletApi = some 1 ∧
     (approvalPollTick { initSt with approvalPoll := true } ⟨"mnLace"⟩ (.ok true)
        (.ok 1) (.ok (⟨"addr"⟩, 7))).error = none ∧
     (approvalPollTick { initSt with approvalPoll := true } ⟨"mnLace"⟩ (.ok true)
        (.ok 1) (.ok (⟨"addr"⟩, 7))).infoMessage = none ∧
     (approvalPollTick { initSt with approvalPoll := true } ⟨"mnLace"⟩ (.ok true)
        (.ok 1) (.ok (⟨"addr"⟩, 7))).isConnecting = false) :=
  ⟨rfl, by decide,
   C4_approval_rerun_outcomes.1 { initSt with approvalPoll := true } ⟨"mnLace"⟩ 1
     ⟨"addr"⟩ 7 rfl (by decide)⟩

theorem approvalPollTick_false_step (s : WalletSt) (conn : Conn)
    (en : Except ConnErr Api) (fr : Except Unit (WState × Uris))
    (hp : s.approvalPoll = true) (hm : s.approvalAttempts + 1 ≤ maxAttempts) :
    approvalPollTick s conn (.ok false) en fr =
      { s with approvalAttempts := s.approvalAttempts + 1 } := by
  have hng : ¬ (s.approvalAttempts + 1 > maxAttempts) := by omega
  simp [approvalPollTick, hp, hng]

theorem pollFalseN_spec (conn : Conn) : ∀ (n : Nat) (s : WalletSt),
    s.approvalPoll = true → s.approvalAttempts + n ≤ maxAttempts →
    pollFalseN conn s n = { s with approvalAttempts := s.approvalAttempts + n } := by
  intro n
  induction n with
  | zero => intro s hp hle; rfl
  | succ n ih =>
      intro s hp hle
      rw [pollFalseN, approvalPollTick_false_step s conn _ _ hp (by omega)]
      rw [ih { s with approvalAttempts := s.approvalAttempts + 1 } hp (by simp; omega)]
      have harith : s.approvalAttempts + 1 + n = s.approvalAttempts + (n + 1) := by
        omega
      simp [harith]

/-- C5: if approval polling runs `maxAttempts` times with `isEnabled()`
resolving `false` each time, the next firing times out: the approval-timeout
error is set, all three timers are cleared, `isConnecting` becomes false
and the info message is cleared; likewise a firing in which `isEnabled()`
throws ends in the Error state with all timers cleared. -/
theorem C5_approval_timeout_and_poll_failure :
    (∀ (s : WalletSt) (conn : Conn),
      s.approvalPoll = true → s.approvalAttempts = 0 →
      ((approvalPollTick (pollFalseN conn s maxAttempts) conn (.ok false)
          (.error ⟨none, none, none⟩) (.error ())).error
            = some approvalTimeoutMsg ∧
       (approvalPollTick (pollFalseN conn s maxAttempts) conn (.ok false)
          (.error ⟨none, none, none⟩) (.error ())).approvalPoll = false ∧
       (approvalPollTick (pollFalseN conn s maxAttempts) conn (.ok false)
          (.error ⟨none, none, none⟩) (.error ())).statusPoll = false ∧
       (approvalPollTick (pollFalseN conn s maxAttempts) conn (.ok false)
          (.error ⟨none, none, none⟩) (.error ())).statePoll = false ∧
       (approvalPollTick (pollFalseN conn s maxAttempts) conn (.ok false)
          (.error ⟨none, none, none⟩) (.error ())).isConnecting = false ∧
       (approvalPollTick (pollFalseN conn s maxAttempts) conn (.ok false)
          (.error ⟨none, none, none⟩) (.error ())).infoMessage = none)) ∧
    (∀ (s : WalletSt) (conn : Conn) (en : Except ConnErr Api)
        (fr : Except Unit (WState × Uris)),
      s.approvalPoll = true → s.approvalAttempts + 1 ≤ maxAttempts →
      ((approvalPollTick s conn (.error ()) en fr).error = some approvalPollFailMsg ∧
       (approvalPollTick s conn (.error ()) en fr).approvalPoll = false ∧
       (approvalPollTick s conn (.error ()) en fr).statusPoll = false ∧
       (approvalPollTick s conn (.error ()) en fr).statePoll = false ∧
       (approvalPollTick s conn (.error ()) en fr).isConnecting = false ∧
       (approvalPollTick s conn (.error ()) en fr).infoMessage = none)) := by
  constructor
  · intro s conn hp h0
    rw [pollFalseN_spec conn maxAttempts s hp (by omega)]
    have hgt : s.approvalAttempts + maxAttempts + 1 > maxAttempts := by omega
    simp [approvalPollTick, hp, hgt, clearAllIntervals]
  · intro s conn en fr hp hm
    have hng : ¬ (s.approvalAttempts + 1 > maxAttempts) := by omega
    simp [approvalPollTick, hp, hng, clearAllIntervals]

/-- C5, witness: from a freshly armed approval poll, 30 `false` answers
followed by one more firing produce the timeout error with every timer
cleared; a throwing poll does the same with its own message. -/
theorem C5_approval_timeout_witness :
    ({ initSt with approvalPoll := true } : WalletSt).approvalPoll = true ∧
    ({ initSt with approvalPoll := true } : WalletSt).approvalAttempts = 0 ∧
    ((approvalPollTick (pollFalseN ⟨"mnLace"⟩ { initSt with approvalPoll := true }
        maxAttempts) ⟨"mnLace"⟩ (.ok false) (.error ⟨none, none, none⟩)
        (.error ())).error = some approvalTimeoutMsg ∧
     (approvalPollTick (pollFalseN ⟨"mnLace"⟩ { initSt with approvalPoll := true }
        maxAttempts) ⟨"mnLace"⟩ (.ok false) (.error ⟨none, none, none⟩)
        (.error ())).approvalPoll = false ∧
     (approvalPollTick (pollFalseN ⟨"mnLace"⟩ { initSt with approvalPoll := true }
        maxAttempts) ⟨"mnLace"⟩ (.ok false) (.error ⟨none, none, none⟩)
        (.error ())).statusPoll = false ∧
     (approvalPollTick (pollFalseN ⟨"mnLace"⟩ { initSt with approvalPoll := true }
        maxAttempts) ⟨"mnLace"⟩ (.ok false) (.error ⟨none, none, none⟩)
        (.error ())).statePoll = false ∧
     (approvalPollTick (pollFalseN ⟨"mnLace"⟩ { initSt with approvalPoll := true }
        maxAttempts) ⟨"mnLace"⟩ (.ok false) (.error ⟨none, none, none⟩)
        (.error ())).isConnecting = false ∧
     (approvalPollTick (pollFalseN ⟨"mnLace"⟩ { initSt with approvalPoll := true }
        maxAttempts) ⟨"mnLace"⟩ (.ok false) (.error ⟨none, none, none⟩)
        (.error ())).infoMessage = none) :=
  ⟨rfl, rfl,
   C5_approval_timeout_and_poll_failure.1 { initSt with approvalPoll := true }
     ⟨"mnLace"⟩ rfl rfl⟩

/-- C6: while the background liveness poll is armed, an `isEnabled()` answer
of `false` or a throw runs `disconnectWallet`, which nulls `walletApi`,
`walletState`, `serviceUris` and `walletName`, clears all three timers, and
sets `isConnecting` to false. -/
theorem C6_liveness_poll_full_reset :
    ∀ (s : WalletSt) (c : Conn),
      s.statusPoll = true →
      (statusPollTick s (some c) (.ok false) = disconnectWallet s ∧
       statusPollTick s (some c) (.error ()) = disconnectWallet s ∧
       (disconnectWallet s).walletApi = none ∧
       (disconnectWallet s).walletState = none ∧
       (disconnectWallet s).serviceUris = none ∧
       (disconnectWallet s).walletName = none ∧
       (disconnectWallet s).statusPoll = false ∧
       (disconnectWallet s).statePoll = false ∧
       (disconnectWallet s).approvalPoll = false ∧
       (disconnectWallet s).isConnecting = false) := by
  intro s c hp
  refine ⟨?_, ?_, rfl, rfl, rfl, rfl, rfl, rfl, rfl, rfl⟩ <;>
    simp [statusPollTick, hp]

/-- C6, witness: a connected state with the liveness poll armed is fully
reset by a `false` poll answer. -/
theorem C6_liveness_poll_full_reset_witness :
    connSt.statusPoll = true ∧
    (statusPollTick connSt (some conn0) (.ok false) = disconnectWallet connSt ∧
     statusPollTick connSt (some conn0) (.error ()) = disconnectWallet connSt ∧
     (disconnectWallet connSt).walletApi = none ∧
     (disconnectWallet connSt).walletState = none ∧
     (disconnectWallet connSt).serviceUris = none ∧
     (disconnectWallet connSt).walletName = none ∧
     (disconnectWallet connSt).statusPoll = false ∧
     (disconnectWallet connSt).statePoll = false ∧
     (disconnectWallet connSt).approvalPoll = false ∧
     (disconnectWallet connSt).isConnecting = false) :=
  ⟨rfl, C6_liveness_poll_full_reset connSt conn0 rfl⟩

/-- C7: while connected with the background state poll armed, a resolved
`state()` answer leaves `walletApi` and every other field except
`walletState` unchanged — `walletState` is replaced exactly when the
returned address differs from the cached one — and only a throwing
`state()` call runs `disconnectWallet`. -/
theorem C7_state_poll_frame :
    ∀ (s : WalletSt) (api : Api) (st : WState),
      s.statePoll = true → s.walletApi = some api →
      ((statePollTick s (.ok st)).walletApi = some api ∧
       (statePollTick s (.ok st)).serviceUris = s.serviceUris ∧
       (statePollTick s (.ok st)).error = s.error ∧
       (statePollTick s (.ok st)).infoMessage = s.infoMessage ∧
       (statePollTick s (.ok st)).walletName = s.walletName ∧
       (statePollTick s (.ok st)).isConnecting = s.isConnecting ∧
       (statePollTick s (.ok st)).isCheckingStatus = s.isCheckingStatus ∧
       (statePollTick s (.ok st)).statusPoll = s.statusPoll ∧
       (statePollTick s (.ok st)).statePoll = s.statePoll ∧
       (addrChanged s st = true → (statePollTick s (.ok st)).walletState = some st) ∧
       (addrChanged s st = false →
          (statePollTick s (.ok st)).walletState = s.walletState) ∧
       statePollTick s (.error ()) = disconnectWallet s) := by
  intro s api st hp ha
  by_cases hc : addrChanged s st = true
  · refine ⟨?_, ?_, ?_, ?_, ?_, ?_, ?_, ?_, ?_, ?_, ?_, ?_⟩ <;>
      simp [statePollTick, hp, ha, hc]
  · rw [Bool.not_eq_true] at hc
    refine ⟨?_, ?_, ?_, ?_, ?_, ?_, ?_, ?_, ?_, ?_, ?_, ?_⟩ <;>
      simp [statePollTick, hp, ha, hc]

/-- C7, witness: with a cached state absent, a resolved answer with address
"addr2" differs and is stored while `walletApi` stays `some 1`. -/
theorem C7_state_poll_frame_witness :
    stSt.statePoll = true ∧
    stSt.walletApi = some 1 ∧
    ((statePollTick stSt (.ok ⟨"addr2"⟩)).walletApi = some 1 ∧
     (statePollTick stSt (.ok ⟨"addr2"⟩)).serviceUris = stSt.serviceUris ∧
     (statePollTick stSt (.ok ⟨"addr2"⟩)).error = stSt.error ∧
     (statePollTick stSt (.ok ⟨"addr2"⟩)).infoMessage = stSt.infoMessage ∧
     (statePollTick stSt (.ok ⟨"addr2"⟩)).walletName = stSt.walletName ∧
     (statePollTick stSt (.ok ⟨"addr2"⟩)).isConnecting = stSt.isConnecting ∧
     (statePollTick stSt (.ok ⟨"addr2"⟩)).isCheckingStatus = stSt.isCheckingStatus ∧
     (statePollTick stSt (.ok ⟨"addr2"⟩)).statusPoll = stSt.statusPoll ∧
     (statePollTick stSt (.ok ⟨"addr2"⟩)).statePoll = stSt.statePoll ∧
     (addrChanged stSt ⟨"addr2"⟩ = true →
        (statePollTick stSt (.ok ⟨"addr2"⟩)).walletState = some ⟨"addr2"⟩) ∧
     (addrChanged stSt ⟨"addr2"⟩ = false →
        (statePollTick stSt (.ok ⟨"addr2"⟩)).walletState = stSt.walletState) ∧
     statePollTick stSt (.error ()) = disconnectWallet stSt) :=
  ⟨rfl, rfl, C7_state_poll_frame stSt 1 ⟨"addr2"⟩ rfl rfl⟩

theorem establishConnection_statusPoll (s : WalletSt) (conn : Conn) (ic : Bool)
    (en : Except ConnErr Api) (fr : Except Unit (WState × Uris)) :
    (establishConnection s conn ic en fr).1.statusPoll = s.statusPoll := by
  cases en with
  | ok api => cases fr <;> simp [establishConnection, fetchDetails]
  | error e =>
      simp only [establishConnection]
      split
      · rfl
      · split <;> rfl

theorem establishConnection_statePoll (s : WalletSt) (conn : Conn) (ic : Bool)
    (en : Except ConnErr Api) (fr : Except Unit (WState × Uris)) :
    (establishConnection s conn ic en fr).1.statePoll = s.statePoll := by
  cases en with
  | ok api => cases fr <;> simp [establishConnection, fetchDetails]
  | error e =>
      simp only [establishConnection]
      split
      · rfl
      · split <;> rfl

theorem establishConnection_approvalPoll (s : WalletSt) (conn : Conn) (ic : Bool)
    (en : Except ConnErr Api) (fr : Except Unit (WState × Uris)) :
    (establishConnection s conn ic en fr).1.approvalPoll = s.approvalPoll := by
  cases en with
  | ok api => cases fr <;> simp [establishConnection, fetchDetails]
  | error e =>
      simp only [establishConnection]
      split
      · rfl
      · split <;> rfl

theorem step_timer_inv (s : WalletSt) (e : Ev)
    (h : s.approvalPoll = true → s.statusPoll = false ∧ s.statePoll = false) :
    (step s e).approvalPoll = true →
      (step s e).statusPoll = false ∧ (step s e).statePoll = false := by
  cases e with
  | evInitial f er en fr =>
      cases f with
      | none => simpa [step, initialLoad] using h
      | some conn =>
          cases er with
          | error u => simpa [step, initialLoad] using h
          | ok b =>
              cases b with
              | false => simpa [step, initialLoad] using h
              | true =>
                  simpa [step, initialLoad, establishConnection_statusPoll,
                         establishConnection_statePoll,
                         establishConnection_approvalPoll] using h
  | evConnect t f en fr =>
      by_cases hg : (s.isConnecting || s.walletApi.isSome) = true
      · simpa [step, connectWallet, hg] using h
      · rw [Bool.not_eq_true] at hg
        cases f with
        | none => simp [step, connectWallet, hg, clearAllIntervals]
        | some conn =>
            simp only [step, connectWallet, hg, Bool.false_eq_true, if_false]
            split
            · simp [startApprovalPolling, clearAllIntervals]
            · simp [establishConnection_statusPoll, establishConnection_statePoll,
                    establishConnection_approvalPoll, clearAllIntervals]
  | evDisconnect => simp [step, disconnectWallet, clearAllIntervals]
  | evApprovalTick c er en fr =>
      by_cases hp : s.approvalPoll = true
      · by_cases hm : s.approvalAttempts + 1 ≤ maxAttempts
        · have hng : ¬ (s.approvalAttempts + 1 > maxAttempts) := by omega
          cases er with
          | error u => simp [step, approvalPollTick, hp, hng, clearAllIntervals]
          | ok b =>
              cases b with
              | false => simpa [step, approvalPollTick, hp, hng] using h
              | true =>
                  simp [step, approvalPollTick, hp, hng,
                        establishConnection_statusPoll, establishConnection_statePoll,
                        establishConnection_approvalPoll, clearAllIntervals]
        · have hgt : s.approvalAttempts + 1 > maxAttempts := by omega
          simp [step, approvalPollTick, hp, hgt, clearAllIntervals]
      · rw [Bool.not_eq_true] at hp
        simp [step, approvalPollTick, hp]
  | evStatusTick f er =>
      by_cases hp : s.statusPoll = true
      · cases f with
        | none => simp [step, statusPollTick, hp, disconnectWallet, clearAllIntervals]
        | some c =>
            cases er with
            | error u =>
                simp [step, statusPollTick, hp, disconnectWallet, clearAllIntervals]
            | ok b =>
                cases b with
                | false =>
                    simp [step, statusPollTick, hp, disconnectWallet,
                          clearAllIntervals]
                | true => simpa [step, statusPollTick, hp] using h
      · rw [Bool.not_eq_true] at hp
        simpa [step, statusPollTick, hp] using h
  | evStateTick r =>
      by_cases hp : s.statePoll = true
      · cases ha : s.walletApi with
        | none => simpa [step, statePollTick, hp, ha] using h
        | some api =>
            cases r with
            | ok st =>
                simp only [step, statePollTick, hp, ha, Bool.not_true,
                           Bool.false_eq_true, if_false]
                split
                · simpa [hp] using h
                · simpa [hp] using h
            | error u =>
                simp [step, statePollTick, hp, ha, disconnectWallet,
                      clearAllIntervals]
      · rw [Bool.not_eq_true] at hp
        simpa [step, statePollTick, hp] using h
  | evEffect =>
      simp only [step, backgroundPollingEffect, clearAllIntervals]
      split <;> simp

theorem foldl_timer_inv (tr : List Ev) : ∀ s : WalletSt,
    (s.approvalPoll = true → s.statusPoll = false ∧ s.statePoll = false) →
    ((tr.foldl step s).approvalPoll = true →
      (tr.foldl step s).statusPoll = false ∧ (tr.foldl step s).statePoll = false) := by
  induction tr with
  | nil => intro s h; exact h
  | cons e tr ih => intro s h; exact ih (step s e) (step_timer_inv s e h)

/-- C9: in every reachable state, the approval-poll timer is never armed at
the same time as the status-poll or the state-poll timer (every arming
operation in the model first disarms all timers via `clearAllIntervals`). -/
theorem C9_timer_exclusion :
    ∀ tr : List Ev, (runTrace tr).approvalPoll = true →
      (runTrace tr).statusPoll = false ∧ (runTrace tr).statePoll = false := by
  intro tr
  exact foldl_timer_inv tr initSt (fun _ => ⟨rfl, rfl⟩)

/-- C9, witness: the trace of one manual connect rejected with code -3 ends
with the approval poll armed and both background polls disarmed. -/
theorem C9_timer_exclusion_witness :
    (runTrace [Ev.evConnect "mnLace" (some ⟨"mnLace"⟩)
        (.error ⟨some (-3), none, none⟩) (.ok (⟨"addr"⟩, 7))]).approvalPoll = true ∧
    ((runTrace [Ev.evConnect "mnLace" (some ⟨"mnLace"⟩)
        (.error ⟨some (-3), none, none⟩) (.ok (⟨"addr"⟩, 7))]).statusPoll = false ∧
     (runTrace [Ev.evConnect "mnLace" (some ⟨"mnLace"⟩)
        (.error ⟨some (-3), none, none⟩) (.ok (⟨"addr"⟩, 7))]).statePoll = false) :=
  ⟨rfl,
   C9_timer_exclusion [Ev.evConnect "mnLace" (some ⟨"mnLace"⟩)
     (.error ⟨some (-3), none, none⟩) (.ok (⟨"addr"⟩, 7))] rfl⟩

/-- C10: whenever an establish attempt fully succeeds (`enable()`, `state()`
and `serviceUriConfig()` all resolve), the routine reports success and the
resulting state has `error = null` and `infoMessage = null`. -/
theorem C10_full_success_clears_messages :
    ∀ (s : WalletSt) (conn : Conn) (ic : Bool) (api : Api) (st : WState) (u : Uris),
      (establishConnection s conn ic (.ok api) (.ok (st, u))).2 = true ∧
      (establishConnection s conn ic (.ok api) (.ok (st, u))).1.error = none ∧
      (establishConnection s conn ic (.ok api) (.ok (st, u))).1.infoMessage = none := by
  intro s conn ic api st u
  exact ⟨rfl, rfl, rfl⟩

end MidnightWallet
